import Mathlib

/-!
Shallow embedding of the zinx `zlog` logging core (zlogger.go) and proofs
about its header formatting, severity gating, numeric rendering and daily
file rotation.  Definitions mirror the Go source; filesystem and clock
effects are supplied through explicit oracle parameters.
-/

namespace Zlog

/-- Header bit flag `BitDate = 1 << iota` (date field 2019/01/23). -/
def BitDate : Nat := 1

/-- Header bit flag for the clock field 01:23:12. -/
def BitTime : Nat := 2

/-- Header bit flag for the microsecond field 01:23:12.111222. -/
def BitMicroSeconds : Nat := 4

/-- Header bit flag for the full caller path. -/
def BitLongFile : Nat := 8

/-- Header bit flag for the trailing file name only. -/
def BitShortFile : Nat := 16

/-- Header bit flag for the bracketed severity tag. -/
def BitLevel : Nat := 32

/-- Composite preset `BitStdFlag = BitDate | BitTime`. -/
def BitStdFlag : Nat := BitDate ||| BitTime

/-- Composite preset `BitDefault = BitLevel | BitShortFile | BitStdFlag`. -/
def BitDefault : Nat := BitLevel ||| BitShortFile ||| BitStdFlag

/-- Severity constant `LogDebug = iota` (Go `int`, modelled as `Int`). -/
def LogDebug : Int := 0

/-- Severity constant `LogInfo`. -/
def LogInfo : Int := 1

/-- Severity constant `LogWarn`. -/
def LogWarn : Int := 2

/-- Severity constant `LogError`. -/
def LogError : Int := 3

/-- Severity constant `LogPanic`. -/
def LogPanic : Int := 4

/-- Severity constant `LogFatal`. -/
def LogFatal : Int := 5

/-- Severity display strings, the `levels` table of zlogger.go. -/
def levels : List String :=
  ["[DEBUG]", "[INFO]", "[WARN]", "[ERROR]", "[PANIC]", "[FATAL]"]

/-- Decimal digit character, modelling Go's `byte(u%10) + '0'`. -/
def digitChar (d : Nat) : Char := Char.ofNat (d + 48)

/-- Loop of `itoa`: assemble the decimal in reverse while `u > 0 || wID > 0`,
then emit the accumulated digits in order (Go writes into `b` backwards and
flushes it forward, which is the same ordering). -/
def itoaLoop (u : Nat) (wID : Int) (acc : List Char) : List Char :=
  if h : u > 0 ∨ wID > 0 then
    itoaLoop (u / 10) (wID - 1) (digitChar (u % 10) :: acc)
  else
    acc
termination_by u + wID.toNat
decreasing_by
  omega

/-- Go `itoa(buf, i, wID)`: fixed-width zero-padded decimal rendering.
`uint(i)` is the 64-bit wrap of the signed argument; a zero value with
width at most one renders as a single `'0'`. -/
def itoa (i : Int) (wID : Int) : String :=
  let u : Nat := (i % (2 : Int) ^ 64).toNat
  if u = 0 ∧ wID ≤ 1 then "0"
  else String.mk (itoaLoop u wID [])

/-- Backward scan of `formatHeader`'s short-file loop: starting at index `j`
and walking down while `i > 0`, return the first index holding `'/'`
(hence the largest such index, and never index 0). -/
def scanSlash (f : List Char) : Nat → Option Nat
  | 0 => none
  | Nat.succ i =>
    if f.get? (i + 1) = some '/' then some (i + 1) else scanSlash f i

/-- Short-file extraction of `formatHeader` (the `BitShortFile` branch):
keep everything after the last `'/'` found at an index at least 1,
otherwise return the path unchanged. -/
def shortFile (f : List Char) : List Char :=
  match scanSlash f (f.length - 1) with
  | some i => f.drop (i + 1)
  | none => f

/-- Timestamp components as delivered by Go's `t.Date()`, `t.Clock()` and
`t.Nanosecond()`. -/
structure DateTime where
  year : Nat
  month : Nat
  day : Nat
  hour : Nat
  minute : Nat
  second : Nat
  nanosecond : Nat

/-- Prefix segment of the header: `<prefix>` when the prefix string is
non-empty, nothing otherwise. -/
def pfxPart (pfx : String) : String :=
  if pfx ≠ "" then "<" ++ pfx ++ ">" else ""

/-- Date segment of the header (`BitDate` branch). -/
def datePart (flag : Nat) (t : DateTime) : String :=
  if flag &&& BitDate ≠ 0 then
    itoa (t.year : Int) 4 ++ "/" ++ itoa (t.month : Int) 2 ++ "/" ++
      itoa (t.day : Int) 2 ++ " "
  else ""

/-- Clock segment of the header (`BitTime | BitMicroSeconds` branch),
with the microsecond sub-field when `BitMicroSeconds` is set. -/
def clockPart (flag : Nat) (t : DateTime) : String :=
  if flag &&& (BitTime ||| BitMicroSeconds) ≠ 0 then
    itoa (t.hour : Int) 2 ++ ":" ++ itoa (t.minute : Int) 2 ++ ":" ++
      itoa (t.second : Int) 2 ++
      (if flag &&& BitMicroSeconds ≠ 0 then
        "." ++ itoa ((t.nanosecond : Int) / 1000) 6
      else "") ++ " "
  else ""

/-- Lookup in the `levels` table; the Go code indexes the slice directly
(and would panic out of range), the model totalises with an empty default.
All call sites pass levels 0..5, see the severity-table theorem. -/
def levelTag (level : Int) : String :=
  match levels.get? level.toNat with
  | some tag => tag
  | none => ""

/-- Severity segment of the header (`BitLevel` branch). -/
def levelPart (flag : Nat) (level : Int) : String :=
  if flag &&& BitLevel ≠ 0 then levelTag level else ""

/-- Caller-location segment of the header (`BitShortFile | BitLongFile`
branch): file, `':'`, unpadded line number, `": "`. -/
def filePart (flag : Nat) (file : List Char) (line : Int) : String :=
  if flag &&& (BitShortFile ||| BitLongFile) ≠ 0 then
    String.mk (if flag &&& BitShortFile ≠ 0 then shortFile file else file) ++
      ":" ++ itoa line (-1) ++ ": "
  else ""

/-- Go `formatHeader`: the prefix segment, then — only when one of the
date, time or microsecond bits is set — the date, clock, severity and
caller-location segments in source order. -/
def formatHeader (pfx : String) (flag : Nat) (t : DateTime) (file : List Char)
    (line : Int) (level : Int) : String :=
  pfxPart pfx ++
    (if flag &&& (BitDate ||| BitTime ||| BitMicroSeconds) ≠ 0 then
      datePart flag t ++ clockPart flag t ++ levelPart flag level ++
        filePart flag file line
    else "")

/-- Message segment of `OutPut`'s buffer: the message, then one `'\n'`
when the message is non-empty and its final byte is not `'\n'`
(Go: `len(s) > 0 && s[len(s)-1] != '\n'`). -/
def outPutBody (s : List Char) : List Char :=
  if 0 < s.length ∧ s.getLast? ≠ some '\n' then s ++ ['\n'] else s

/-- Buffer contents written by `OutPut`: header then message segment. -/
def outPutBuf (hdr s : List Char) : List Char :=
  hdr ++ outPutBody s

/-- Go `verifyLogIsolation`: report suppression when the configured
isolation level exceeds the call's severity. -/
def verifyLogIsolation (isolationLevel logLevel : Int) : Bool :=
  if isolationLevel > logLevel then true else false

/-- Final control-flow outcome of a severity method. -/
inductive Outcome where
  | normal : Outcome
  | exited : Nat → Outcome
  | panicked : Outcome
deriving DecidableEq

/-- Observable result of one severity method call: the severity handed to
`OutPut` (none when the gate suppressed the call) and the control-flow
outcome. -/
structure CallResult where
  emitted : Option Int
  outcome : Outcome
deriving DecidableEq

/-- Go `Debugf`: gate at `LogDebug`, then emit. -/
def debugfCall (iso : Int) : CallResult :=
  if verifyLogIsolation iso LogDebug then ⟨none, Outcome.normal⟩
  else ⟨some LogDebug, Outcome.normal⟩

/-- Go `Debug`: gate at `LogDebug`, then emit. -/
def debugCall (iso : Int) : CallResult :=
  if verifyLogIsolation iso LogDebug then ⟨none, Outcome.normal⟩
  else ⟨some LogDebug, Outcome.normal⟩

/-- Go `Infof`: gate at `LogInfo`, then emit. -/
def infofCall (iso : Int) : CallResult :=
  if verifyLogIsolation iso LogInfo then ⟨none, Outcome.normal⟩
  else ⟨some LogInfo, Outcome.normal⟩

/-- Go `Info`: gate at `LogInfo`, then emit. -/
def infoCall (iso : Int) : CallResult :=
  if verifyLogIsolation iso LogInfo then ⟨none, Outcome.normal⟩
  else ⟨some LogInfo, Outcome.normal⟩

/-- Go `Warnf`: gate at `LogWarn`, then emit. -/
def warnfCall (iso : Int) : CallResult :=
  if verifyLogIsolation iso LogWarn then ⟨none, Outcome.normal⟩
  else ⟨some LogWarn, Outcome.normal⟩

/-- Go `Warn`: gate at `LogWarn`, then emit. -/
def warnCall (iso : Int) : CallResult :=
  if verifyLogIsolation iso LogWarn then ⟨none, Outcome.normal⟩
  else ⟨some LogWarn, Outcome.normal⟩

/-- Go `Errorf`: gate at `LogError`, then emit. -/
def errorfCall (iso : Int) : CallResult :=
  if verifyLogIsolation iso LogError then ⟨none, Outcome.normal⟩
  else ⟨some LogError, Outcome.normal⟩

/-- Go `Error`: gate at `LogError`, then emit. -/
def errorCall (iso : Int) : CallResult :=
  if verifyLogIsolation iso LogError then ⟨none, Outcome.normal⟩
  else ⟨some LogError, Outcome.normal⟩

/-- Go `Panicf`: gate at `LogPanic`, then emit and raise. -/
def panicfCall (iso : Int) : CallResult :=
  if verifyLogIsolation iso LogPanic then ⟨none, Outcome.normal⟩
  else ⟨some LogPanic, Outcome.panicked⟩

/-- Go `Panic`: gate at `LogPanic`, then emit and raise. -/
def panicCall (iso : Int) : CallResult :=
  if verifyLogIsolation iso LogPanic then ⟨none, Outcome.normal⟩
  else ⟨some LogPanic, Outcome.panicked⟩

/-- Go `Fatalf`: gate at `LogFatal`, then emit (the write error is
discarded — the `_writeFailed` oracle is ignored exactly as `_ =` does)
and call `os.Exit(1)`. -/
def fatalfCall (iso : Int) (_writeFailed : Bool) : CallResult :=
  if verifyLogIsolation iso LogFatal then ⟨none, Outcome.normal⟩
  else ⟨some LogFatal, Outcome.exited 1⟩

/-- Go `Fatal`: gate at `LogFatal`, then emit (write error discarded) and
call `os.Exit(1)`. -/
def fatalCall (iso : Int) (_writeFailed : Bool) : CallResult :=
  if verifyLogIsolation iso LogFatal then ⟨none, Outcome.normal⟩
  else ⟨some LogFatal, Outcome.exited 1⟩

/-- Go `Stack`: no gate, always emits at `LogError`. -/
def stackCall : CallResult :=
  ⟨some LogError, Outcome.normal⟩

/-- Whether a call at severity `s` under isolation level `iso` reaches
`OutPut` (the negation of the gate). -/
def emittedAt (iso s : Int) : Bool :=
  !(verifyLogIsolation iso s)

/-- Mutable logger configuration touched by `SetLogLevel`. -/
structure LoggerConfig where
  isolationLevel : Int
deriving DecidableEq

/-- Go `SetLogLevel`: store the argument unvalidated. -/
def SetLogLevel (cfg : LoggerConfig) (logLevel : Int) : LoggerConfig :=
  { cfg with isolationLevel := logLevel }

/-- Severities handed to `OutPut` by the public entry points, in source
order: Debugf, Debug, Infof, Info, Warnf, Warn, Errorf, Error, Panicf,
Panic, Fatalf, Fatal, Stack. -/
def apiLevels : List Int :=
  [LogDebug, LogDebug, LogInfo, LogInfo, LogWarn, LogWarn, LogError,
    LogError, LogPanic, LogPanic, LogFatal, LogFatal, LogError]

/-- Whether a severity value indexes the `levels` table in bounds. -/
def levelInBounds (l : Int) : Bool :=
  decide (0 ≤ l) && decide (l.toNat < levels.length)

/-- The current output destination of the logger: standard error, an open
file handle, or the nil file handle that `updateOutputFile` binds after a
failed open (writes to it fail). -/
inductive Sink where
  | stderr : Sink
  | handle : Nat → Sink
  | broken : Sink
deriving DecidableEq

/-- Rotation-relevant fields of `ZinxLoggerCore`: current writer, bound
file, day-of-year of the last rotation, and the rotation target. -/
structure RotState where
  out : Sink
  file : Option Nat
  lastWriteDate : Int
  fileDir : String
  fileName : String

/-- Filesystem and clock oracle for one `updateOutputFile` execution:
current day-of-year, formatted date, whether `MkdirAll` failed with a
permission error, and the outcomes of `Stat` and the two `OpenFile`
calls keyed by path (`none` models a failed open returning a nil file). -/
structure RotEnv where
  yearDay : Int
  today : String
  mkdirPermErr : Bool
  fileExists : String → Bool
  openAppend : String → Option Nat
  openCreate : String → Option Nat

/-- Go `mkdirLog`: only a permission error from `MkdirAll` is reported;
every other failure is swallowed. -/
def mkdirLog (permErr : Bool) : Option Unit :=
  if permErr then some () else none

/-- Go `closeFile`: when a file is bound, drop it and fall back to
standard error. -/
def closeFile (st : RotState) : RotState :=
  if st.file.isSome = true then
    { st with file := none, out := Sink.stderr }
  else st

/-- Go `updateOutputFile`: fast-path day check, double-checked recheck
under the rotation lock, day-field update, directory creation with the
error discarded (`_ = mkdirLog(...)`), open of `{dir}/{name}.{date}` with
the error discarded, close of the previous file, and rebinding of `file`
and `out` to the open result — a nil (broken) writer when the open
failed. -/
def updateOutputFile (env : RotEnv) (st : RotState) : RotState :=
  if st.lastWriteDate = env.yearDay ∧ st.file.isSome = true then st
  else if st.lastWriteDate = env.yearDay ∧ st.file.isSome = true then st
  else
    let st1 := { st with lastWriteDate := env.yearDay }
    let _ := mkdirLog env.mkdirPermErr
    let newDailyFile := st1.fileDir ++ "/" ++ st1.fileName ++ "." ++ env.today
    let file : Option Nat :=
      if env.fileExists newDailyFile then env.openAppend newDailyFile
      else env.openCreate newDailyFile
    let st2 := if st1.file.isSome = true then closeFile st1 else st1
    { st2 with
      file := file,
      out := match file with
             | some h => Sink.handle h
             | none => Sink.broken }

/-- Whether a write to the given sink succeeds: a write through the nil
file handle fails (`os.File` methods reject a nil receiver). -/
def writeToSink : Sink → Bool
  | Sink.broken => false
  | _ => true

/-- Logger state with a good file bound on day 100, as left by a
successful earlier rotation. -/
def st0 : RotState :=
  { out := Sink.handle 1, file := some 1, lastWriteDate := 100,
    fileDir := "log", fileName := "zinx" }

/-- Logger state before any rotation: stderr sink, no bound file. -/
def stFresh : RotState :=
  { out := Sink.stderr, file := none, lastWriteDate := 0,
    fileDir := "log", fileName := "zinx" }

/-- Oracle for day 101 on which directory creation is denied and both
open paths fail, returning a nil file. -/
def envOpenFail : RotEnv :=
  { yearDay := 101, today := "20190102", mkdirPermErr := true,
    fileExists := fun _ => false,
    openAppend := fun _ => none,
    openCreate := fun _ => none }

/-- Concrete timestamp used to exercise the header formatter. -/
def t2019 : DateTime :=
  { year := 2019, month := 4, day := 11, hour := 11, minute := 15,
    second := 33, nanosecond := 123456789 }

/-! Theorems. -/

/-- The gate test unfolds to the comparison `iso > l`. -/
theorem verifyLogIsolation_eq (iso l : Int) :
    verifyLogIsolation iso l = decide (iso > l) := by
  unfold verifyLogIsolation
  by_cases h : iso > l <;> simp [h]

/-- Emission of a gated severity method, generically in the severity and
the non-suppressed outcome. -/
theorem gate_emitted (iso l : Int) (oc : Outcome) :
    (if verifyLogIsolation iso l then (⟨none, Outcome.normal⟩ : CallResult)
     else ⟨some l, oc⟩).emitted = if iso > l then none else some l := by
  rw [verifyLogIsolation_eq]
  by_cases h : iso > l <;> simp [h]

/-- C3: for every severity method and every isolation level, the call is
suppressed (nothing reaches `OutPut`) exactly when the isolation level
exceeds the call's severity; otherwise it emits at that severity. -/
theorem c3_gate_suppresses_iff_isolation_above :
    ∀ (iso : Int) (writeFailed : Bool),
      (debugfCall iso).emitted = (if iso > LogDebug then none else some LogDebug) ∧
      (debugCall iso).emitted = (if iso > LogDebug then none else some LogDebug) ∧
      (infofCall iso).emitted = (if iso > LogInfo then none else some LogInfo) ∧
      (infoCall iso).emitted = (if iso > LogInfo then none else some LogInfo) ∧
      (warnfCall iso).emitted = (if iso > LogWarn then none else some LogWarn) ∧
      (warnCall iso).emitted = (if iso > LogWarn then none else some LogWarn) ∧
      (errorfCall iso).emitted = (if iso > LogError then none else some LogError) ∧
      (errorCall iso).emitted = (if iso > LogError then none else some LogError) ∧
      (panicfCall iso).emitted = (if iso > LogPanic then none else some LogPanic) ∧
      (panicCall iso).emitted = (if iso > LogPanic then none else some LogPanic) ∧
      (fatalfCall iso writeFailed).emitted = (if iso > LogFatal then none else some LogFatal) ∧
      (fatalCall iso writeFailed).emitted = (if iso > LogFatal then none else some LogFatal) :=
  fun iso _ =>
    ⟨gate_emitted iso LogDebug Outcome.normal,
     gate_emitted iso LogDebug Outcome.normal,
     gate_emitted iso LogInfo Outcome.normal,
     gate_emitted iso LogInfo Outcome.normal,
     gate_emitted iso LogWarn Outcome.normal,
     gate_emitted iso LogWarn Outcome.normal,
     gate_emitted iso LogError Outcome.normal,
     gate_emitted iso LogError Outcome.normal,
     gate_emitted iso LogPanic Outcome.panicked,
     gate_emitted iso LogPanic Outcome.panicked,
     gate_emitted iso LogFatal (Outcome.exited 1),
     gate_emitted iso LogFatal (Outcome.exited 1)⟩

/-- C7: `itoa` zero-pads to the requested width and renders zero as
`"0"` at width 1 and at no fixed width; digits beyond the width are kept. -/
theorem c7_itoa_padding_and_zero :
    itoa 7 2 = "07" ∧ itoa 0 1 = "0" ∧ itoa 0 (-1) = "0" ∧
    itoa 7 (-1) = "7" ∧ itoa 123 2 = "123" := by
  refine ⟨?_, ?_, ?_, ?_, ?_⟩ <;> simp [itoa, itoaLoop, digitChar]

/-- C4 (amended): whenever the configured isolation level is at most
`LogFatal`, both `Fatal` variants emit at `LogFatal` and terminate the
process with exit status 1, regardless of whether the write succeeded. -/
theorem c4_fatal_exits_when_not_suppressed :
    ∀ (iso : Int) (writeFailed : Bool), iso ≤ LogFatal →
      (fatalfCall iso writeFailed).outcome = Outcome.exited 1 ∧
      (fatalCall iso writeFailed).outcome = Outcome.exited 1 ∧
      (fatalfCall iso writeFailed).emitted = some LogFatal ∧
      (fatalCall iso writeFailed).emitted = some LogFatal := by
  intro iso wf h
  have hg : verifyLogIsolation iso LogFatal = false := by
    rw [verifyLogIsolation_eq]
    simp only [LogFatal] at h ⊢
    simp
    omega
  refine ⟨?_, ?_, ?_, ?_⟩ <;> simp [fatalfCall, fatalCall, hg]

/-- C4 witness: at isolation level 0 and with the write failing, both
`Fatal` variants still exit with status 1. -/
theorem c4_fatal_exits_witness :
    (fatalfCall 0 true).outcome = Outcome.exited 1 ∧
    (fatalCall 0 true).outcome = Outcome.exited 1 :=
  ⟨(c4_fatal_exits_when_not_suppressed 0 true (by decide)).1,
   (c4_fatal_exits_when_not_suppressed 0 true (by decide)).2.1⟩

/-- C4 counterexample: `SetLogLevel` accepts 6 unvalidated, and at that
isolation level `Fatalf` is suppressed and returns without terminating
the process. -/
theorem c4_counterexample :
    (fatalfCall (SetLogLevel ⟨0⟩ 6).isolationLevel true).outcome ≠
      Outcome.exited 1 ∧
    (fatalfCall (SetLogLevel ⟨0⟩ 6).isolationLevel true).emitted = none := by
  decide

/-- C8 (amended): for isolation levels `L1 < L2` with `L1` inside the
valid severity range, every severity emitted under `L2` is emitted under
`L1`, and some severity is emitted under `L1` but suppressed under `L2`. -/
theorem c8_raising_level_removes_strictly_more :
    ∀ L1 L2 : Int, L1 < L2 → 0 ≤ L1 → L1 ≤ LogFatal →
      (∀ s : Fin 6, emittedAt L2 (s.val : Int) = true →
        emittedAt L1 (s.val : Int) = true) ∧
      (∃ s : Fin 6, emittedAt L1 (s.val : Int) = true ∧
        emittedAt L2 (s.val : Int) = false) := by
  intro L1 L2 h12 h0 h5
  simp only [LogFatal] at h5
  constructor
  · intro s hs
    simp only [emittedAt, verifyLogIsolation_eq, Bool.not_eq_true',
      decide_eq_false_iff_not, not_lt] at hs ⊢
    omega
  · refine ⟨⟨L1.toNat, by omega⟩, ?_, ?_⟩ <;>
      simp only [emittedAt, verifyLogIsolation_eq, Bool.not_eq_true',
        Bool.not_eq_false', decide_eq_false_iff_not, decide_eq_true_eq,
        not_lt] <;>
      omega

/-- C8 witness: stepping the isolation level from 2 to 4 suppresses some
severity that level 2 still emits. -/
theorem c8_witness :
    ∃ s : Fin 6, emittedAt 2 (s.val : Int) = true ∧
      emittedAt 4 (s.val : Int) = false :=
  (c8_raising_level_removes_strictly_more 2 4 (by decide) (by decide)
    (by decide)).2

/-- C8 counterexample: for isolation levels 6 < 7 no severity at all is
emitted under the lower level, so raising the level removes nothing. -/
theorem c8_counterexample :
    (6 : Int) < 7 ∧
    ¬ ∃ s : Fin 6, emittedAt 6 (s.val : Int) = true ∧
      emittedAt 7 (s.val : Int) = false := by
  decide

/-- C5: when none of the date, time or microsecond bits is set the header
is the prefix segment alone — the severity tag and the caller-location
field are dropped even when their own bits are set; when a time-related
bit is set, the date, clock, severity and caller-location segments are
appended each under its own bit. -/
theorem c5_time_bits_gate_level_and_file :
    ∀ (pfx : String) (flag : Nat) (t : DateTime) (file : List Char)
      (line : Int) (level : Int),
      (flag &&& (BitDate ||| BitTime ||| BitMicroSeconds) = 0 →
        formatHeader pfx flag t file line level = pfxPart pfx) ∧
      (flag &&& (BitDate ||| BitTime ||| BitMicroSeconds) ≠ 0 →
        formatHeader pfx flag t file line level =
          pfxPart pfx ++ datePart flag t ++ clockPart flag t ++
            levelPart flag level ++ filePart flag file line) := by
  intro pfx flag t file line level
  constructor
  · intro h
    simp [formatHeader, h]
  · intro h
    simp [formatHeader, h, String.append_assoc]

/-- C5 witness: with `BitLevel` and `BitShortFile` set but no time bit the
header is just the prefix segment; with `BitStdFlag` and `BitLevel` set
the full segment concatenation appears. -/
theorem c5_witness :
    formatHeader "p" (BitLevel ||| BitShortFile) t2019
      ['m', '.', 'g', 'o'] 12 LogError = pfxPart "p" ∧
    formatHeader "p" (BitStdFlag ||| BitLevel) t2019
      ['m', '.', 'g', 'o'] 12 LogError =
      pfxPart "p" ++ datePart (BitStdFlag ||| BitLevel) t2019 ++
        clockPart (BitStdFlag ||| BitLevel) t2019 ++
        levelPart (BitStdFlag ||| BitLevel) LogError ++
        filePart (BitStdFlag ||| BitLevel) ['m', '.', 'g', 'o'] 12 :=
  ⟨(c5_time_bits_gate_level_and_file "p" (BitLevel ||| BitShortFile) t2019
      ['m', '.', 'g', 'o'] 12 LogError).1 (by decide),
   (c5_time_bits_gate_level_and_file "p" (BitStdFlag ||| BitLevel) t2019
      ['m', '.', 'g', 'o'] 12 LogError).2 (by decide)⟩

/-- When no index of the path from 1 upward holds `'/'`, the backward
scan finds nothing. -/
theorem scanSlash_eq_none (f : List Char) (j : Nat)
    (h : ∀ i, 1 ≤ i → f.get? i ≠ some '/') : scanSlash f j = none := by
  induction j with
  | zero => rfl
  | succ k ih =>
    simp only [scanSlash]
    rw [if_neg (h (k + 1) (by omega))]
    exact ih

/-- An index returned by the backward scan is at least 1 and holds `'/'`. -/
theorem scanSlash_some (f : List Char) (j i : Nat)
    (h : scanSlash f j = some i) : 1 ≤ i ∧ f.get? i = some '/' := by
  induction j with
  | zero => simp [scanSlash] at h
  | succ k ih =>
    simp only [scanSlash] at h
    by_cases hc : f.get? (k + 1) = some '/'
    · rw [if_pos hc] at h
      injection h with h'
      subst h'
      exact ⟨by omega, hc⟩
    · rw [if_neg hc] at h
      exact ih h

/-- C9: the short-file scan never inspects index 0, so a path whose only
separator is its first character is returned unchanged, leading slash
included; a prefix is stripped only when some separator sits at index 1
or later. -/
theorem c9_short_file_scan_stops_before_index_zero :
    (∀ f : List Char, (∀ i, i < f.length → 1 ≤ i → f.get? i ≠ some '/') →
      shortFile f = f) ∧
    (∀ f : List Char, shortFile f ≠ f →
      ∃ i, 1 ≤ i ∧ f.get? i = some '/') ∧
    shortFile "/main.go".toList = "/main.go".toList := by
  refine ⟨?_, ?_, ?_⟩
  · intro f h
    have h' : ∀ i, 1 ≤ i → f.get? i ≠ some '/' := by
      intro i h1
      by_cases hlt : i < f.length
      · exact h i hlt h1
      · rw [List.get?_eq_none.mpr (by omega)]
        simp
    simp [shortFile, scanSlash_eq_none f (f.length - 1) h']
  · intro f hne
    unfold shortFile at hne
    rcases hs : scanSlash f (f.length - 1) with _ | i
    · rw [hs] at hne
      simp at hne
    · exact ⟨i, scanSlash_some f (f.length - 1) i hs⟩
  · decide

/-- C9 witness: the scan leaves `"/main.go"` unchanged, and strips up to
the separator at index 2 in `"a/b.go"`. -/
theorem c9_witness :
    shortFile "/main.go".toList = "/main.go".toList ∧
    ∃ i, 1 ≤ i ∧ "a/b.go".toList.get? i = some '/' :=
  ⟨c9_short_file_scan_stops_before_index_zero.1 "/main.go".toList
      (by decide),
   c9_short_file_scan_stops_before_index_zero.2.1 "a/b.go".toList
      (by decide)⟩

/-- C6 (amended): a non-empty message not ending in `'\n'` gets exactly
one `'\n'` appended after it in the buffer; a message ending in `'\n'`
and the empty message are written unchanged. -/
theorem c6_newline_appended_to_nonempty :
    ∀ (hdr s : List Char),
      (s ≠ [] → s.getLast? ≠ some '\n' →
        outPutBuf hdr s = hdr ++ s ++ ['\n']) ∧
      (s.getLast? = some '\n' → outPutBuf hdr s = hdr ++ s) ∧
      (s = [] → outPutBuf hdr s = hdr) := by
  intro hdr s
  refine ⟨?_, ?_, ?_⟩
  · intro hne hnl
    have hpos : 0 < s.length := List.length_pos.mpr hne
    simp [outPutBuf, outPutBody, hpos, hnl]
  · intro hl
    simp [outPutBuf, outPutBody, hl]
  · intro he
    subst he
    simp [outPutBuf, outPutBody]

/-- C6 witness: `"a"` gains a terminator, `"a\n"` and the empty message
are written unchanged. -/
theorem c6_witness :
    outPutBuf ['H'] ['a'] = ['H'] ++ ['a'] ++ ['\n'] ∧
    outPutBuf ['H'] ['a', '\n'] = ['H'] ++ ['a', '\n'] ∧
    outPutBuf ['H'] [] = ['H'] :=
  ⟨(c6_newline_appended_to_nonempty ['H'] ['a']).1 (by decide) (by decide),
   (c6_newline_appended_to_nonempty ['H'] ['a', '\n']).2.1 (by decide),
   (c6_newline_appended_to_nonempty ['H'] []).2.2 rfl⟩

/-- C6 counterexample: the empty message does not end in a terminator,
yet no terminator is appended (`OutPut` requires `len(s) > 0`). -/
theorem c6_counterexample :
    ¬ ∀ (hdr s : List Char), s.getLast? ≠ some '\n' →
      outPutBuf hdr s = hdr ++ s ++ ['\n'] := by
  intro h
  exact absurd (h ['H'] [] (by decide)) (by decide)

/-- C10: the severity table has exactly six entries and every severity a
public entry point hands to `OutPut` (and thence to `formatHeader`)
indexes it in bounds. -/
theorem c10_severity_table_indexing_in_bounds :
    levels.length = 6 ∧ apiLevels.all levelInBounds = true ∧
    apiLevels.all (fun l => (levels.get? l.toNat).isSome) = true := by
  refine ⟨rfl, ?_, ?_⟩ <;> decide

/-- C1 (code behaviour at the failing input): on a day rollover where the
open fails, `updateOutputFile` closes the previously good file and binds
the nil handle as the sink, so the sink is neither the previous file nor
standard error and every subsequent write fails; the rotation errors
themselves are discarded inside `updateOutputFile`. -/
theorem c1_rotation_failure_breaks_sink :
    st0.out = Sink.handle 1 ∧
    (updateOutputFile envOpenFail st0).file = none ∧
    (updateOutputFile envOpenFail st0).out = Sink.broken ∧
    (updateOutputFile envOpenFail st0).out ≠ st0.out ∧
    (updateOutputFile envOpenFail st0).out ≠ Sink.stderr ∧
    writeToSink (updateOutputFile envOpenFail st0).out = false := by
  refine ⟨rfl, ?_, ?_, ?_, ?_, ?_⟩ <;> decide

/-- C2 (amended): whenever the double-checked rotation test fails — the
stored day differs from today or no file is bound — `updateOutputFile`
sets `lastWriteDate` to the current day at the start of the slow path,
before and regardless of the outcome of the directory creation and the
file open. -/
theorem c2_lastWriteDate_set_on_slow_path_entry :
    ∀ (env : RotEnv) (st : RotState),
      ¬(st.lastWriteDate = env.yearDay ∧ st.file.isSome = true) →
      (updateOutputFile env st).lastWriteDate = env.yearDay := by
  intro env st h
  unfold updateOutputFile
  rw [if_neg h, if_neg h]
  simp only [closeFile]
  split <;> rfl

/-- C2 witness: emitting with no bound file on day 101 marks day 101 even
though the open fails. -/
theorem c2_witness :
    (updateOutputFile envOpenFail stFresh).lastWriteDate = 101 :=
  c2_lastWriteDate_set_on_slow_path_entry envOpenFail stFresh (by decide)

/-- C2 counterexample: the slow path updates `lastWriteDate` from 100 to
101 in an execution whose open fails and binds no file, so the day field
changes before (indeed without) a successful open of the new day's file. -/
theorem c2_counterexample :
    st0.lastWriteDate = 100 ∧
    (updateOutputFile envOpenFail st0).lastWriteDate = 101 ∧
    (updateOutputFile envOpenFail st0).file = none := by
  refine ⟨rfl, ?_, ?_⟩ <;> decide

end Zlog
